import Mathlib

/-!
Verification development for the `code-example-tooling` repository.

Part 1 embeds `test_patterns.py` (the Pattern Tester): Python regular
expressions are modelled by a small regex AST with Brzozowski-derivative
matching, `fnmatch` by a direct wildcard matcher, and `test_file` follows
the script's control flow.

Part 2 embeds `examples-copier/scripts/validate-config-detailed.py`
(the Config Validator): parsed YAML documents are modelled by `YVal`,
and `validate_config` returns the accumulated issue and warning lists
together with the boolean result; Python paths that would raise an
uncaught exception are modelled as `Except.error`.
-/

/-! ## Regex AST and Brzozowski-derivative matching

Models the fragment of Python `re` syntax used by the scripts:
literal characters, escapes, `.`, `+`, `*`, `?`, groups `(...)` and
named groups with the same matching behaviour, a leading `^`
and a trailing `$`. -/

inductive RE where
  | eps
  | fail
  | lit (c : Char)
  | dot
  | seq (a b : RE)
  | alt (a b : RE)
  | star (a : RE)
deriving Repr

def RE.nullable : RE → Bool
  | .eps => true
  | .fail => false
  | .lit _ => false
  | .dot => false
  | .seq a b => a.nullable && b.nullable
  | .alt a b => a.nullable || b.nullable
  | .star _ => true

def RE.deriv (c : Char) : RE → RE
  | .eps => .fail
  | .fail => .fail
  | .lit d => if d == c then .eps else .fail
  | .dot => if c == '\n' then .fail else .eps
  | .seq a b =>
      if a.nullable then .alt (.seq (RE.deriv c a) b) (RE.deriv c b)
      else .seq (RE.deriv c a) b
  | .alt a b => .alt (RE.deriv c a) (RE.deriv c b)
  | .star a => .seq (RE.deriv c a) (.star a)

/-- `fullMatch r s` : the regex matches the whole character list `s`. -/
def RE.fullMatch (r : RE) : List Char → Bool
  | [] => r.nullable
  | c :: s => (r.deriv c).fullMatch s

/-- The regex matches some (possibly empty) leading segment of `s`.
This is the behaviour of Python `re.match` for a pattern without `$`. -/
def RE.matchSomePfx (r : RE) : List Char → Bool
  | [] => r.nullable
  | c :: s => r.nullable || (r.deriv c).matchSomePfx s

/-- Matching for a pattern that ends in `$`, anchored at the current
position: Python's `$` accepts the end of the string or the position
just before a final newline. -/
def RE.matchToEol (r : RE) (s : List Char) : Bool :=
  r.fullMatch s || (s.getLast? == some '\n' && r.fullMatch s.dropLast)

/-! ## A parser for the regex fragment used by the scripts -/

def is_word_char (c : Char) : Bool := c.isAlphanum || c == '_'

/-- After `(?P<`, consume the first group-name character (at least one
word character is required). -/
def skipGroupName : List Char → Option (List Char)
  | [] => none
  | c :: rest => if is_word_char c then skipGroupNameRest rest else none
where
  skipGroupNameRest : List Char → Option (List Char)
  | [] => none
  | c :: rest =>
      if c == '>' then some rest
      else if is_word_char c then skipGroupNameRest rest
      else none

/-- Fueled recursive-descent parser for a regex sequence; stops at the
end of the input or at an unconsumed `)`. Characters outside the
fragment that the repository's patterns use make the parse fail. -/
def parseSeq : Nat → List Char → Option (RE × List Char)
  | 0, _ => none
  | _ + 1, [] => some (.eps, [])
  | _ + 1, cs@(')' :: _) => some (.eps, cs)
  | fuel + 1, c :: rest =>
    let atomRes : Option (RE × List Char) :=
      match c, rest with
      | '\\', d :: r2 => some (.lit d, r2)
      | '\\', [] => none
      | '.', _ => some (.dot, rest)
      | '(', _ =>
        let innerStart : Option (List Char) :=
          match rest with
          | '?' :: 'P' :: '<' :: r2 => skipGroupName r2
          | '?' :: _ => none
          | _ => some rest
        match innerStart with
        | none => none
        | some r3 =>
          match parseSeq fuel r3 with
          | some (g, ')' :: r4) => some (g, r4)
          | _ => none
      | '*', _ => none
      | '+', _ => none
      | '?', _ => none
      | '|', _ => none
      | '[', _ => none
      | '{', _ => none
      | '^', _ => none
      | '$', _ => none
      | _, _ => some (.lit c, rest)
    match atomRes with
    | none => none
    | some (a, r5) =>
      let quant : RE × List Char :=
        match r5 with
        | '+' :: r6 => (.seq a (.star a), r6)
        | '*' :: r6 => (.star a, r6)
        | '?' :: r6 => (.alt a .eps, r6)
        | _ => (a, r5)
      match parseSeq fuel quant.2 with
      | some (b, r7) => some (.seq quant.1 b, r7)
      | none => none

/-- Strip an unescaped trailing `$`, reporting whether one was present. -/
def stripDollar (cs : List Char) : List Char × Bool :=
  if cs.getLast? == some '$' && cs.dropLast.getLast? != some '\\' then
    (cs.dropLast, true)
  else (cs, false)

/-- Parse a Python pattern string into (leading-caret flag, body AST,
trailing-dollar flag). -/
def parsePyPattern (pat : String) : Option (Bool × RE × Bool) :=
  let cs := pat.toList
  let startStripped : Bool × List Char :=
    match cs with
    | '^' :: r => (true, r)
    | _ => (false, cs)
  let ds := stripDollar startStripped.2
  match parseSeq (ds.1.length * 2 + 4) ds.1 with
  | some (r, []) => some (startStripped.1, r, ds.2)
  | _ => none

/-- Match anchored at the current position, honouring a trailing `$`. -/
def matchHere (r : RE) (dollar : Bool) (t : List Char) : Bool :=
  if dollar then r.matchToEol t else r.matchSomePfx t

/-- All suffixes of a list, longest first (including the empty one). -/
def suffixesOf : List Char → List (List Char)
  | [] => [[]]
  | c :: s => (c :: s) :: suffixesOf s

/-- Python `re.match(pattern, file_path) is not None` for the pattern
fragment above (`re.match` anchors at the start of the string). -/
def test_regex (file_path pattern : String) : Bool :=
  match parsePyPattern pattern with
  | none => false
  | some (_, r, dollar) => matchHere r dollar file_path.toList

/-- Python `re.search(pattern, file_path) is not None`: the match may
start at any position, unless the pattern has a leading `^`. -/
def test_search (file_path pattern : String) : Bool :=
  match parsePyPattern pattern with
  | none => false
  | some (caret, r, dollar) =>
    if caret then matchHere r dollar file_path.toList
    else (suffixesOf file_path.toList).any (matchHere r dollar)

/-! ## fnmatch (shell-style wildcard matching), POSIX case behaviour -/

/-- Membership in a character-class body, with `a-b` ranges. -/
def inClassRange : List Char → Char → Bool
  | a :: '-' :: b :: rest, c => (decide (a ≤ c) && decide (c ≤ b)) || inClassRange rest c
  | a :: rest, c => a == c || inClassRange rest c
  | [], _ => false

/-- Class match, with `!` negation when it is the first body character. -/
def classMatch (body : List Char) (c : Char) : Bool :=
  match body with
  | '!' :: rest => !(inClassRange rest c)
  | _ => inClassRange body c

/-- Index of the `]` closing a character class, mirroring Python's
`fnmatch.translate` scanning rules (a leading `!` and then a leading
`]` are part of the body). -/
def findCloseIdx (ps : List Char) : Option Nat :=
  let start : Nat :=
    match ps with
    | '!' :: ']' :: _ => 2
    | '!' :: _ => 1
    | ']' :: _ => 1
    | _ => 0
  match (ps.drop start).findIdx? (· == ']') with
  | some k => some (start + k)
  | none => none

/-- Shell-style wildcard matching of a name against a pattern
(`*`, `?`, `[...]` classes; an unterminated `[` is a literal), with a
fuel argument for structural recursion: every recursive call strictly
decreases the combined length of name and pattern, so any fuel above
that sum is sufficient. -/
def fnmatchFuel : Nat → List Char → List Char → Bool
  | 0, _, _ => false
  | _ + 1, nm, [] => nm.isEmpty
  | fuel + 1, nm, '*' :: ps =>
      fnmatchFuel fuel nm ps ||
      (match nm with
       | [] => false
       | _ :: ns => fnmatchFuel fuel ns ('*' :: ps))
  | _ + 1, [], '?' :: _ => false
  | fuel + 1, _ :: ns, '?' :: ps => fnmatchFuel fuel ns ps
  | fuel + 1, nm, '[' :: ps =>
      (match findCloseIdx ps with
       | none =>
          (match nm with
           | [] => false
           | c :: ns => c == '[' && fnmatchFuel fuel ns ps)
       | some k =>
          (match nm with
           | [] => false
           | c :: ns => classMatch (ps.take k) c && fnmatchFuel fuel ns (ps.drop (k + 1))))
  | _ + 1, [], _ :: _ => false
  | fuel + 1, c :: ns, p :: ps => c == p && fnmatchFuel fuel ns ps

def fnmatchList (nm ps : List Char) : Bool :=
  fnmatchFuel (nm.length + ps.length + 1) nm ps

/-! ## The Pattern Tester (`test_patterns.py`) -/

/-- The embedded test-file list `TEST_FILES`. -/
def TEST_FILES : List String := [
  "mflix/client/src/App.tsx",
  "mflix/client/src/components/Header.tsx",
  "mflix/client/package.json",
  "mflix/client/.gitignore",
  "mflix/client/README.md",
  "mflix/server/java-spring/src/main/java/Main.java",
  "mflix/server/java-spring/pom.xml",
  "mflix/server/java-spring/.env",
  "mflix/server/js-express/src/index.js",
  "mflix/server/js-express/package.json",
  "mflix/server/python-fastapi/main.py",
  "mflix/server/python-fastapi/requirements.txt",
  "mflix/README-JAVA-SPRING.md",
  "mflix/README-JAVASCRIPT-EXPRESS.md",
  "mflix/README-PYTHON-FASTAPI.md",
  "mflix/.gitignore-java",
  "mflix/.gitignore-js",
  "mflix/.gitignore-python",
  "mflix/docker-compose.yml",
  "mflix/package.json",
  "mflix/README.md",
  "other/file.txt"]

/-- The embedded rule dictionary `PATTERNS`, as an insertion-ordered
list of (rule name, (pattern type, pattern string)). -/
def PATTERNS : List (String × String × String) := [
  ("mflix-client-to-java", "prefix", "mflix/client/"),
  ("java-server", "regex", "^mflix/server/java-spring/(?P<file>.+)$"),
  ("mflix-java-readme", "glob", "mflix/README-JAVA-SPRING.md"),
  ("mflix-java-gitignore", "glob", "mflix/.gitignore-java"),
  ("mflix-client-to-js", "prefix", "mflix/client/"),
  ("mflix-express-server", "regex", "^mflix/server/js-express/(?P<file>.+)$"),
  ("mflix-js-readme", "glob", "mflix/README-JAVASCRIPT-EXPRESS.md"),
  ("mflix-js-gitignore", "glob", "mflix/.gitignore-js"),
  ("mflix-client-to-python", "prefix", "mflix/client/"),
  ("mflix-python-server", "regex", "^mflix/server/python-fastapi/(?P<file>.+)$"),
  ("mflix-python-readme", "glob", "mflix/README-PYTHON-FASTAPI.md"),
  ("mflix-python-gitignore", "glob", "mflix/.gitignore-python")]

/-- The exclusion pattern list `EXCLUSIONS`. -/
def EXCLUSIONS : List String := ["\\.gitignore$", "README\\.md$", "\\.env$"]

/-- `is_excluded`: some exclusion regex is found (`re.search`) in the path. -/
def is_excluded (file_path : String) : Bool :=
  EXCLUSIONS.any (fun pattern => test_search file_path pattern)

/-- `test_prefix`: Python `file_path.startswith(pattern)`. -/
def test_prefix (file_path pattern : String) : Bool :=
  pattern.toList.isPrefixOf file_path.toList

/-- `test_glob`: Python `fnmatch(file_path, pattern)` (POSIX,
where `os.path.normcase` is the identity). -/
def test_glob (file_path pattern : String) : Bool :=
  fnmatchList file_path.toList pattern.toList

/-- The per-rule dispatch in the body of `test_file`'s loop. -/
def rule_matches (file_path : String) (pattern_type pattern : String) : Bool :=
  if pattern_type == "prefix" then test_prefix file_path pattern
  else if pattern_type == "regex" then test_regex file_path pattern
  else if pattern_type == "glob" then test_glob file_path pattern
  else false

/-- `test_file`: classify one path against the exclusions and all rules. -/
def test_file (file_path : String) : String × List String :=
  if is_excluded file_path then ("excluded", [])
  else
    let matching := PATTERNS.foldl
      (fun acc r => if rule_matches file_path r.2.1 r.2.2 then acc ++ [r.1] else acc) []
    if !matching.isEmpty then ("matched", matching) else ("skipped", [])

/-- The list of names of the rules matching a path, in rule insertion
order (specification-side characterisation of `test_file`'s loop). -/
def matching_rules (file_path : String) : List String :=
  (PATTERNS.filter (fun r => rule_matches file_path r.2.1 r.2.2)).map Prod.fst

/-! ## YAML value model for the Config Validator

`YVal` is the shape of documents as returned by the (black-box) YAML
parser: scalars, sequences, and mappings with string keys in document
order. -/

inductive YVal where
  | null
  | bool (b : Bool)
  | int (n : Int)
  | str (s : String)
  | list (xs : List YVal)
  | map (kvs : List (String × YVal))

/-- First-match lookup in a mapping (Python dict keys are unique). -/
def ylookup : List (String × YVal) → String → Option YVal
  | [], _ => none
  | (k, v) :: rest, key => if k == key then some v else ylookup rest key

/-- Python truthiness of a value. -/
def YVal.truthy : YVal → Bool
  | .null => false
  | .bool b => b
  | .int n => n != 0
  | .str s => s != ""
  | .list xs => !xs.isEmpty
  | .map kvs => !kvs.isEmpty

/-- Truthiness of a `dict.get` result (an absent key yields `None`). -/
def truthyOpt : Option YVal → Bool
  | none => false
  | some v => v.truthy

/-- Python `==` comparison of a value with a string literal. -/
def isStrVal : Option YVal → String → Bool
  | some (.str s), t => s == t
  | _, _ => false

def YVal.isMap : YVal → Bool
  | .map _ => true
  | _ => false

mutual

/-- Python `str()` rendering of a value (used inside f-strings). -/
def py_str : YVal → String
  | .null => "None"
  | .bool true => "True"
  | .bool false => "False"
  | .int n => toString n
  | .str s => s
  | .list xs => "[" ++ String.intercalate ", " (py_repr_list xs) ++ "]"
  | .map kvs => "\x7b" ++ String.intercalate ", " (py_repr_map kvs) ++ "\x7d"

/-- Python `repr()` rendering (container elements are shown with `repr`). -/
def py_repr : YVal → String
  | .null => "None"
  | .bool true => "True"
  | .bool false => "False"
  | .int n => toString n
  | .str s => "\x27" ++ s ++ "\x27"
  | .list xs => "[" ++ String.intercalate ", " (py_repr_list xs) ++ "]"
  | .map kvs => "\x7b" ++ String.intercalate ", " (py_repr_map kvs) ++ "\x7d"

def py_repr_list : List YVal → List String
  | [] => []
  | v :: rest => py_repr v :: py_repr_list rest

def py_repr_map : List (String × YVal) → List String
  | [] => []
  | (k, v) :: rest => ("\x27" ++ k ++ "\x27: " ++ py_repr v) :: py_repr_map rest

end

def py_str_opt : Option YVal → String
  | some v => py_str v
  | none => "None"

/-- Python iteration over a value, as used for `copy_rules`
(`len()` and the `for` loop succeed on exactly these shapes;
anything else raises, modelled as an error). -/
def py_iter : YVal → Except String (List YVal)
  | .list xs => .ok xs
  | .str s => .ok (s.toList.map fun c => .str (String.mk [c]))
  | .map kvs => .ok (kvs.map fun kv => .str kv.1)
  | _ => .error "TypeError: object is not iterable"

/-! ## The Config Validator
(`examples-copier/scripts/validate-config-detailed.py`) -/

/-- Result of a completed validation run: the accumulated issue and
warning lists and the boolean returned by `validate_config`. -/
structure VOut where
  issues : List String
  warnings : List String
  ok : Bool
deriving Repr, DecidableEq

/-- Rule-scoped message, Python `f"Rule '{rule_name}': {tail}"`. -/
def rmsg (rule_name tail : String) : String :=
  "Rule \x27" ++ rule_name ++ "\x27: " ++ tail

/-- Target-scoped message, Python `f"Rule '{rule_name}', Target {j}: {tail}"`. -/
def tmsg (rule_name : String) (j : Nat) (tail : String) : String :=
  "Rule \x27" ++ rule_name ++ "\x27, Target " ++ toString j ++ ": " ++ tail

/-- Whether `(?P<` followed by one or more word characters and `>`
occurs at the head of the character list. -/
def namedGroupHere : List Char → Bool
  | '(' :: '?' :: 'P' :: '<' :: rest => (skipGroupName rest).isSome
  | _ => false

/-- The validator's heuristic `re.search(r'\(\?P<\w+>', pattern_str)`:
the pattern string contains named-capture-group syntax somewhere. -/
def has_named_group (s : String) : Bool :=
  (suffixesOf s.toList).any namedGroupHere

/-- Modelled from the spec: the outcome of Python `re.compile` (the
standard library, external to the repository); per the spec a pattern
such as an unbalanced `"("` fails to compile. The scan tracks escape
sequences, group parentheses and character classes, and returns the
error text for an ill-formed pattern, `none` for a compilable one. -/
def re_compile_scan : List Char → Nat → Bool → Option String
  | [], 0, false => none
  | [], _ + 1, false => some "missing ), unterminated subpattern"
  | [], _, true => some "unterminated character set"
  | '\\' :: [], _, _ => some "bad escape (end of pattern)"
  | '\\' :: _ :: rest, d, ic => re_compile_scan rest d ic
  | '(' :: rest, d, false => re_compile_scan rest (d + 1) false
  | ')' :: _, 0, false => some "unbalanced parenthesis"
  | ')' :: rest, d + 1, false => re_compile_scan rest d false
  | '[' :: rest, d, false => re_compile_scan rest d true
  | ']' :: rest, d, true => re_compile_scan rest d false
  | _ :: rest, d, ic => re_compile_scan rest d ic

def re_compile_err (p : String) : Option String :=
  re_compile_scan p.toList 0 false

/-- The pattern-`type` checks of one rule (missing / invalid type). -/
def pattern_type_issues (rule_name : String) (pattern_type : Option YVal) : List String :=
  if !truthyOpt pattern_type then [rmsg rule_name "Missing pattern type"]
  else if !(isStrVal pattern_type "prefix" || isStrVal pattern_type "glob"
      || isStrVal pattern_type "regex") then
    [rmsg rule_name ("Invalid pattern type \x27" ++ py_str_opt pattern_type
      ++ "\x27 (must be prefix, glob, or regex)")]
  else []

/-- The pattern-string checks of one rule: missing string, the
prefix/regex-syntax mismatch heuristic, and regex compilation. A truthy
non-string pattern makes `re.search` raise, modelled as an error. -/
def pattern_str_checks (rule_name : String) (pattern_type pattern_str : Option YVal) :
    Except String (List String × List String) :=
  if !truthyOpt pattern_str then .ok ([rmsg rule_name "Missing pattern string"], [])
  else
    match pattern_str with
    | some (.str p) =>
      let hasNamed := has_named_group p
      let mismatchI := if isStrVal pattern_type "prefix" && hasNamed then
          [rmsg rule_name
            "Pattern type is \x27prefix\x27 but pattern contains regex syntax \x27(?P<...>)\x27"]
        else []
      let mismatchW := if isStrVal pattern_type "prefix" && hasNamed then
          [rmsg rule_name "Should use type: \x27regex\x27 instead of \x27prefix\x27"]
        else []
      let compileI := if isStrVal pattern_type "regex" then
          match re_compile_err p with
          | some e => [rmsg rule_name ("Invalid regex pattern: " ++ e)]
          | none => []
        else []
      .ok (mismatchI ++ compileI, mismatchW)
    | _ => .error "TypeError: expected string or bytes-like object"

/-- The checks of one target (1-indexed). -/
def target_checks (rule_name : String) (j : Nat) (t : YVal) : List String × List String :=
  match t with
  | .map tk =>
    let repoI := if (ylookup tk "repo").isNone then
        [tmsg rule_name j "Missing \x27repo\x27 field"] else []
    let branchW := if (ylookup tk "branch").isNone then
        [tmsg rule_name j "Missing \x27branch\x27 field (will use default)"] else []
    let ptW := if (ylookup tk "path_transform").isNone then
        [tmsg rule_name j "Missing \x27path_transform\x27 field"] else []
    let csI :=
      match ylookup tk "commit_strategy" with
      | none => []
      | some (.map sk) =>
        let st := ylookup sk "type"
        if truthyOpt st && !(isStrVal st "direct" || isStrVal st "pull_request") then
          [tmsg rule_name j ("Invalid commit_strategy type \x27" ++ py_str_opt st ++ "\x27")]
        else []
      | some _ => [tmsg rule_name j "commit_strategy must be a dictionary"]
    (repoI ++ csI, branchW ++ ptW)
  | _ => ([tmsg rule_name j "Must be a dictionary"], [])

def targets_loop (rule_name : String) (j : Nat) : List YVal → List String × List String
  | [] => ([], [])
  | t :: rest =>
    let a := target_checks rule_name j t
    let b := targets_loop rule_name (j + 1) rest
    (a.1 ++ b.1, a.2 ++ b.2)

/-- The target-level checks of one rule (list shape, emptiness
warning, per-target checks). -/
def targets_checks (rule_name : String) (targets : YVal) : List String × List String :=
  match targets with
  | .list ts =>
    let emptW := if ts.isEmpty then [rmsg rule_name "No targets defined"] else []
    let lw := targets_loop rule_name 1 ts
    (lw.1, emptW ++ lw.2)
  | _ => ([rmsg rule_name "targets must be a list"], [])

/-- Python `rule.get('name', f'Rule {i}')` rendered with `str()`. -/
def rule_display_name (kvs : List (String × YVal)) (i : Nat) : String :=
  match ylookup kvs "name" with
  | some v => py_str v
  | none => "Rule " ++ toString i

/-- All checks of one rule (the body of the validator's main loop; a
`continue` in the script is an early result here). A non-mapping rule
element makes `rule.get` raise, modelled as an error. -/
def rule_checks (i : Nat) (rule : YVal) : Except String (List String × List String) :=
  match rule with
  | .map kvs =>
    let rule_name := rule_display_name kvs i
    if (ylookup kvs "source_pattern").isNone then
      .ok ([rmsg rule_name "Missing source_pattern"], [])
    else if (ylookup kvs "targets").isNone then
      .ok ([rmsg rule_name "Missing targets"], [])
    else
      match (ylookup kvs "source_pattern").getD .null with
      | .map spkvs => do
          let pres ← pattern_str_checks rule_name (ylookup spkvs "type") (ylookup spkvs "pattern")
          let tres := targets_checks rule_name ((ylookup kvs "targets").getD (.list []))
          .ok (pattern_type_issues rule_name (ylookup spkvs "type") ++ pres.1 ++ tres.1,
               pres.2 ++ tres.2)
      | _ => .ok ([rmsg rule_name "source_pattern must be a dictionary"], [])
  | _ => .error "AttributeError: rule element has no attribute get"

/-- The validator's loop over `copy_rules` (1-indexed), accumulating
issues and warnings across all rules. -/
def validate_rules (i : Nat) : List YVal → Except String (List String × List String)
  | [] => .ok ([], [])
  | r :: rest => do
    let a ← rule_checks i r
    let b ← validate_rules (i + 1) rest
    .ok (a.1 ++ b.1, a.2 ++ b.2)

/-- `validate_config` on a successfully parsed document: structure
check, required top-level keys (short-circuiting), then the rule loop;
the returned boolean is `True` iff the issue list is empty. -/
def validate_config (config : YVal) : Except String VOut :=
  match config with
  | .map kvs =>
    let issues0 :=
      (if (ylookup kvs "source_repo").isNone then ["Missing required field: source_repo"] else [])
      ++ (if (ylookup kvs "copy_rules").isNone then ["Missing required field: copy_rules"] else [])
    if issues0.isEmpty then
      match py_iter ((ylookup kvs "copy_rules").getD (.list [])) with
      | .error e => .error e
      | .ok rules =>
        match validate_rules 1 rules with
        | .error e => .error e
        | .ok rw => .ok ⟨rw.1, rw.2, rw.1.isEmpty⟩
    else .ok ⟨issues0, [], false⟩
  | _ => .ok ⟨["Config must be a dictionary"], [], false⟩

/-- `validate_config` including the parse phase: a YAML or read error
is printed and the function returns `False` with nothing accumulated. -/
def validate_config_file (doc : Except String YVal) : Except String VOut :=
  match doc with
  | .error _ => .ok ⟨[], [], false⟩
  | .ok config => validate_config config

/-- The `__main__` block: exit 1 on a wrong argument count, else exit
0 iff `validate_config` returned `True` (an uncaught exception also
ends the process unsuccessfully). -/
def script_exit (argc : Nat) (res : Except String VOut) : Nat :=
  if argc != 2 then 1
  else
    match res with
    | .ok out => if out.ok then 0 else 1
    | .error _ => 1

/-- Two consecutive runs of the validator on the same document. -/
def run_twice (doc : Except String YVal) : Except String VOut × Except String VOut :=
  (validate_config_file doc, validate_config_file doc)

/-! ## Helper lemmas -/

theorem foldl_append_if_eq_filter_map {α : Type} (f : α → Bool) (g : α → String) :
    ∀ (l : List α) (acc : List String),
      l.foldl (fun acc r => if f r then acc ++ [g r] else acc) acc
        = acc ++ (l.filter f).map g := by
  intro l
  induction l with
  | nil => intro acc; simp
  | cons x xs ih =>
    intro acc
    simp only [List.foldl_cons, List.filter_cons]
    by_cases hx : f x = true
    · simp [hx, ih, List.append_assoc]
    · simp [hx, ih]

/-! ## Claim theorems -/

/-- C1: for every path that matches no exclusion pattern, `test_file`
evaluates every rule independently (the matching-rule list is the
filter of the whole rule list, in insertion order, hence a sublist of
the rule names), classifies the path `matched` with exactly the names
of the matching rules when at least one rule matches and `skipped`
otherwise; a rule of type `prefix` matches exactly when the pattern is
a literal prefix of the path. -/
theorem C1_rule_evaluation (fp : String) (h : is_excluded fp = false) :
    test_file fp =
      (if matching_rules fp = [] then ("skipped", []) else ("matched", matching_rules fp)) ∧
    matching_rules fp
      = (PATTERNS.filter (fun r => rule_matches fp r.2.1 r.2.2)).map Prod.fst ∧
    (matching_rules fp).Sublist (PATTERNS.map Prod.fst) ∧
    (∀ name, name ∈ matching_rules fp ↔
      ∃ ptype pat, (name, ptype, pat) ∈ PATTERNS ∧ rule_matches fp ptype pat = true) ∧
    (∀ pat, test_prefix fp pat = true ↔ pat.toList <+: fp.toList) := by
  have key : PATTERNS.foldl
      (fun acc r => if rule_matches fp r.2.1 r.2.2 then acc ++ [r.1] else acc) []
        = matching_rules fp := by
    rw [foldl_append_if_eq_filter_map]
    simp [matching_rules]
  refine ⟨?_, rfl, ?_, ?_, ?_⟩
  · simp only [test_file, h, Bool.false_eq_true, if_false, key]
    by_cases hm : matching_rules fp = [] <;> simp [hm]
  · exact (List.filter_sublist PATTERNS).map Prod.fst
  · intro name
    simp only [matching_rules, List.mem_map, List.mem_filter]
    constructor
    · rintro ⟨⟨n, pt, p⟩, ⟨hmem, hm⟩, rfl⟩
      exact ⟨pt, p, hmem, hm⟩
    · rintro ⟨pt, p, hmem, hm⟩
      exact ⟨(name, pt, p), ⟨hmem, hm⟩, rfl⟩
  · intro pat
    simp [ test_prefix, List.isPrefixOf_iff_prefix]

/-- C1 witness: concrete instances of the classification, one skipped
path and one matched path. -/
theorem C1_rule_evaluation_witness :
    test_file "other/file.txt" = ("skipped", []) ∧
    test_file "mflix/client/package.json" =
      ("matched", ["mflix-client-to-java", "mflix-client-to-js", "mflix-client-to-python"]) := by
  constructor
  · have h := (C1_rule_evaluation "other/file.txt" (by rfl)).1
    have hm : matching_rules "other/file.txt" = [] := by rfl
    rw [h, if_pos hm]
  · have h := (C1_rule_evaluation "mflix/client/package.json" (by rfl)).1
    have hm : matching_rules "mflix/client/package.json" =
        ["mflix-client-to-java", "mflix-client-to-js", "mflix-client-to-python"] := by rfl
    rw [h, hm]
    simp

/-- C2: every path matching an exclusion pattern is classified
`excluded` with an empty rule list, with no rule evaluation (the
result does not depend on the rules at all). -/
theorem C2_exclusion_precedence (fp : String) (h : is_excluded fp = true) :
    test_file fp = ("excluded", []) := by
  simp [test_file, h]

/-- C2 witness: `mflix/client/README.md` is excluded and classified
`excluded`, although the three `prefix` rules with pattern
`mflix/client/` would have matched it. -/
theorem C2_exclusion_precedence_witness :
    is_excluded "mflix/client/README.md" = true ∧
    ("mflix-client-to-java", "prefix", "mflix/client/") ∈ PATTERNS ∧
    rule_matches "mflix/client/README.md" "prefix" "mflix/client/" = true ∧
    test_file "mflix/client/README.md" = ("excluded", []) :=
  ⟨by rfl, by simp [PATTERNS], by rfl, C2_exclusion_precedence _ (by rfl)⟩

/-- C7: the path `mflix/client/src/App.tsx` is classified `matched`
with exactly the three `prefix` rules sharing pattern `mflix/client/`,
in insertion order. -/
theorem C7_app_tsx_classification :
    test_file "mflix/client/src/App.tsx" =
      ("matched", ["mflix-client-to-java", "mflix-client-to-js", "mflix-client-to-python"]) := by
  rfl

/-- C9: the validator is a pure function of the parsed document: two
runs on the same document produce the same issue list, warning list
and result, hence the same exit code. -/
theorem C9_validator_deterministic (doc : Except String YVal) (argc : Nat) :
    (run_twice doc).1 = (run_twice doc).2 ∧
    script_exit argc (run_twice doc).1 = script_exit argc (run_twice doc).2 :=
  ⟨rfl, rfl⟩

/-- C8: a parsed document whose root is not a mapping fails
immediately with only the structural issue recorded and nothing else
(no key, rule or target checks contribute). -/
theorem C8_non_mapping_root (v : YVal) (h : v.isMap = false) :
    validate_config v = .ok ⟨["Config must be a dictionary"], [], false⟩ := by
  cases v <;> simp_all [validate_config, YVal.isMap]

/-- C8 witness: a list-rooted document. -/
theorem C8_non_mapping_root_witness :
    validate_config (.list [.int 1, .int 2]) =
      .ok ⟨["Config must be a dictionary"], [], false⟩ :=
  C8_non_mapping_root _ (by rfl)

/-- C3: whenever validation of a mapping-rooted document completes,
the boolean result is `True` exactly when the accumulated issue list
is empty (warnings never cause failure), and the process exits 0
exactly when the result is `True`; any argument count other than 2
exits 1. -/
theorem C3_success_iff_no_issues (kvs : List (String × YVal)) (out : VOut)
    (h : validate_config (.map kvs) = .ok out) :
    (out.ok = true ↔ out.issues = []) ∧
    (script_exit 2 (.ok out) = 0 ↔ out.ok = true) ∧
    (∀ argc, argc ≠ 2 → script_exit argc (.ok out) = 1) := by
  refine ⟨?_, ?_, ?_⟩
  · simp only [validate_config] at h
    cases hs : (ylookup kvs "source_repo").isNone <;>
      cases hc : (ylookup kvs "copy_rules").isNone <;>
      simp only [hs, hc, Bool.false_eq_true, if_true, if_false, List.append_nil,
        List.nil_append, List.cons_append, List.isEmpty_nil, List.isEmpty_cons] at h
    case false.false =>
      cases hpy : py_iter ((ylookup kvs "copy_rules").getD (YVal.list [])) with
      | error e => simp [hpy] at h
      | ok rules =>
        simp only [hpy] at h
        cases hvr : validate_rules 1 rules with
        | error e => simp [hvr] at h
        | ok rw =>
          simp only [hvr] at h
          injection h with h
          subst h
          simp [List.isEmpty_iff]
    all_goals
      injection h with h
      subst h
      simp
  · cases hok : out.ok <;> simp [script_exit, hok]
  · intro argc hargc
    simp [script_exit, hargc]

/-- C3 witness: a well-formed document with no issues. -/
theorem C3_success_iff_no_issues_witness :
    ((⟨[], [], true⟩ : VOut).ok = true ↔ (⟨[], [], true⟩ : VOut).issues = []) ∧
    (script_exit 2 (.ok (⟨[], [], true⟩ : VOut)) = 0 ↔ (⟨[], [], true⟩ : VOut).ok = true) ∧
    (∀ argc, argc ≠ 2 → script_exit argc (.ok (⟨[], [], true⟩ : VOut)) = 1) :=
  C3_success_iff_no_issues [("source_repo", .str "org/repo"), ("copy_rules", .list [])]
    ⟨[], [], true⟩ (by rfl)

/-- C4: a mapping-rooted document missing `source_repo` or
`copy_rules` (or both) yields exactly one issue per missing key, no
warnings, and failure, with no rule-level validation performed. -/
theorem C4_missing_required_fields (kvs : List (String × YVal))
    (h : ylookup kvs "source_repo" = none ∨ ylookup kvs "copy_rules" = none) :
    validate_config (.map kvs) = .ok
      ⟨(if (ylookup kvs "source_repo").isNone then ["Missing required field: source_repo"] else [])
        ++ (if (ylookup kvs "copy_rules").isNone then ["Missing required field: copy_rules"] else []),
       [], false⟩ := by
  simp only [validate_config]
  rcases h with h | h <;> cases hs : (ylookup kvs "source_repo").isNone <;>
    cases hc : (ylookup kvs "copy_rules").isNone <;>
    simp_all [Option.isNone_iff_eq_none]

/-- C4 witness: a document with `copy_rules` but no `source_repo`
(whose rules would produce issues, yet none are reported). -/
theorem C4_missing_required_fields_witness :
    validate_config (.map [("copy_rules", .list [.map []])]) =
      .ok ⟨["Missing required field: source_repo"], [], false⟩ := by
  have h := C4_missing_required_fields [("copy_rules", .list [.map []])] (Or.inl (by rfl))
  simpa using h

/-- C5: a rule of type `regex` whose non-empty pattern string fails to
compile gets exactly one issue citing the compilation error, its
target checks still run (their issues and warnings follow), and
validation continues with the subsequent rules, whose issues and
warnings are still accumulated. -/
theorem C5_regex_compile_failure
    (i : Nat) (kvs spkvs : List (String × YVal)) (p e : String) (tv : YVal)
    (rest : List YVal) (restIssues restWarns : List String)
    (hsp : ylookup kvs "source_pattern" = some (.map spkvs))
    (htg : ylookup kvs "targets" = some tv)
    (hty : ylookup spkvs "type" = some (.str "regex"))
    (hpat : ylookup spkvs "pattern" = some (.str p))
    (hne : p ≠ "")
    (hc : re_compile_err p = some e)
    (hrest : validate_rules (i + 1) rest = .ok (restIssues, restWarns)) :
    rule_checks i (.map kvs) = .ok
      (rmsg (rule_display_name kvs i) ("Invalid regex pattern: " ++ e)
         :: (targets_checks (rule_display_name kvs i) tv).1,
       (targets_checks (rule_display_name kvs i) tv).2) ∧
    validate_rules i (.map kvs :: rest) = .ok
      ((rmsg (rule_display_name kvs i) ("Invalid regex pattern: " ++ e)
         :: (targets_checks (rule_display_name kvs i) tv).1) ++ restIssues,
       (targets_checks (rule_display_name kvs i) tv).2 ++ restWarns) := by
  have h1 : rule_checks i (.map kvs) = .ok
      (rmsg (rule_display_name kvs i) ("Invalid regex pattern: " ++ e)
         :: (targets_checks (rule_display_name kvs i) tv).1,
       (targets_checks (rule_display_name kvs i) tv).2) := by
    simp [rule_checks, hsp, htg, hty, hpat, hc, hne, pattern_str_checks,
      pattern_type_issues, truthyOpt, YVal.truthy, isStrVal]
    rfl
  refine ⟨h1, ?_⟩
  simp [validate_rules, h1, hrest]
  rfl

/-- C5 witness: the unbalanced pattern `(` in rule 1; its empty target
list still yields its warning, and rule 2 is still checked. -/
theorem C5_regex_compile_failure_witness :
    validate_rules 1
      [.map [("source_pattern", .map [("type", .str "regex"), ("pattern", .str "(")]),
             ("targets", .list [])],
       .map []] = .ok
      (["Rule \x27Rule 1\x27: Invalid regex pattern: missing ), unterminated subpattern",
        "Rule \x27Rule 2\x27: Missing source_pattern"],
       ["Rule \x27Rule 1\x27: No targets defined"]) := by
  have h := (C5_regex_compile_failure 1
    [("source_pattern", .map [("type", .str "regex"), ("pattern", .str "(")]),
     ("targets", .list [])]
    [("type", .str "regex"), ("pattern", .str "(")] "("
    "missing ), unterminated subpattern" (.list []) [.map []]
    ["Rule \x27Rule 2\x27: Missing source_pattern"] []
    rfl rfl rfl rfl (by decide) rfl rfl).2
  exact h.trans (by rfl)

/-- C6: a rule of type `prefix` whose non-empty pattern string
contains named-capture-group syntax gets both the type/pattern
mismatch issue and the companion warning suggesting type `regex`. -/
theorem C6_named_group_issue_and_warning
    (i : Nat) (kvs spkvs : List (String × YVal)) (p : String) (tv : YVal)
    (hsp : ylookup kvs "source_pattern" = some (.map spkvs))
    (htg : ylookup kvs "targets" = some tv)
    (hty : ylookup spkvs "type" = some (.str "prefix"))
    (hpat : ylookup spkvs "pattern" = some (.str p))
    (hne : p ≠ "")
    (hg : has_named_group p = true) :
    rule_checks i (.map kvs) = .ok
      (rmsg (rule_display_name kvs i)
          "Pattern type is \x27prefix\x27 but pattern contains regex syntax \x27(?P<...>)\x27"
        :: (targets_checks (rule_display_name kvs i) tv).1,
       rmsg (rule_display_name kvs i) "Should use type: \x27regex\x27 instead of \x27prefix\x27"
        :: (targets_checks (rule_display_name kvs i) tv).2) := by
  simp [rule_checks, hsp, htg, hty, hpat, hne, hg, pattern_str_checks,
    pattern_type_issues, truthyOpt, YVal.truthy, isStrVal]
  rfl

/-- C6 witness: the prefix-typed rule with pattern
`^x/(?P<file>.+)$` receives both messages; its well-formed target
contributes nothing. -/
theorem C6_named_group_issue_and_warning_witness :
    rule_checks 1
      (.map [("name", .str "bad"),
             ("source_pattern", .map [("type", .str "prefix"),
                                      ("pattern", .str "^x/(?P<file>.+)$")]),
             ("targets", .list [.map [("repo", .str "r"), ("branch", .str "b"),
                                      ("path_transform", .str "t")]])]) = .ok
      (["Rule \x27bad\x27: Pattern type is \x27prefix\x27 but pattern contains regex syntax \x27(?P<...>)\x27"],
       ["Rule \x27bad\x27: Should use type: \x27regex\x27 instead of \x27prefix\x27"]) := by
  have h := C6_named_group_issue_and_warning 1
    [("name", .str "bad"),
     ("source_pattern", .map [("type", .str "prefix"),
                              ("pattern", .str "^x/(?P<file>.+)$")]),
     ("targets", .list [.map [("repo", .str "r"), ("branch", .str "b"),
                              ("path_transform", .str "t")]])]
    [("type", .str "prefix"), ("pattern", .str "^x/(?P<file>.+)$")]
    "^x/(?P<file>.+)$"
    (.list [.map [("repo", .str "r"), ("branch", .str "b"), ("path_transform", .str "t")]])
    rfl rfl rfl rfl (by decide) (by rfl)
  exact h.trans (by rfl)

/-- C10: a rule whose `source_pattern` mapping has a missing or empty
`pattern` gets exactly the single "Missing pattern string" issue from
the pattern-string phase (no mismatch heuristic, no regex
compilation), while the type checks and the target checks still
contribute as usual. -/
theorem C10_missing_pattern_string
    (i : Nat) (kvs spkvs : List (String × YVal)) (tv : YVal)
    (hsp : ylookup kvs "source_pattern" = some (.map spkvs))
    (htg : ylookup kvs "targets" = some tv)
    (hpat : ylookup spkvs "pattern" = none ∨ ylookup spkvs "pattern" = some (.str "")) :
    rule_checks i (.map kvs) = .ok
      (pattern_type_issues (rule_display_name kvs i) (ylookup spkvs "type")
         ++ rmsg (rule_display_name kvs i) "Missing pattern string"
           :: (targets_checks (rule_display_name kvs i) tv).1,
       (targets_checks (rule_display_name kvs i) tv).2) := by
  rcases hpat with h | h <;>
    (simp [rule_checks, hsp, htg, h, pattern_str_checks, truthyOpt, YVal.truthy]; rfl)

/-- C10 witness: a `regex`-typed rule with an empty pattern string
produces only the missing-pattern issue (in particular no
compilation-error issue), and its target phase still runs (the empty
target list warning is emitted). -/
theorem C10_missing_pattern_string_witness :
    rule_checks 1
      (.map [("source_pattern", .map [("type", .str "regex"), ("pattern", .str "")]),
             ("targets", .list [])]) = .ok
      (["Rule \x27Rule 1\x27: Missing pattern string"],
       ["Rule \x27Rule 1\x27: No targets defined"]) := by
  have h := C10_missing_pattern_string 1
    [("source_pattern", .map [("type", .str "regex"), ("pattern", .str "")]),
     ("targets", .list [])]
    [("type", .str "regex"), ("pattern", .str "")] (.list [])
    rfl rfl (Or.inr rfl)
  exact h.trans (by rfl)
